import Mathlib

/-!
Verification of the mtg MTPROTO proxy sources.

The Go sources are shallowly embedded below:
- package `config` (Config, NewConfig, UseMiddleProxy) from the config file;
- package `proxy` (Serve, accept, pump, getClientStream, NewServer);
- package `client` (DirectInit).

External collaborators that are not part of the repository sources
(net.Listen, hex decoding from the Go standard library, the wrappers
package constructors, the obfuscated2 codec, the global-IP detectors)
are embedded from their documented behaviour or taken as parameters,
as noted at each definition.
-/

set_option autoImplicit false

namespace Mtg

/-- Result discriminator for the Go `(value, error)` convention. -/
def exOk {ε α : Type} : Except ε α → Bool
  | Except.ok _ => true
  | Except.error _ => false

/-- Forget the error of a Go-style result. -/
def exToOption {ε α : Type} : Except ε α → Option α
  | Except.ok a => some a
  | Except.error _ => none

/-- Embeds `errors.Annotate(err, msg)` from juju/errors: the annotation
message is prepended to the cause. -/
def annotate (msg cause : String) : String :=
  msg ++ ": " ++ cause

/-- Embeds the per-character table of Go `encoding/hex.fromHexChar`:
digits, lowercase and uppercase hex letters decode, all else fails. -/
def fromHexChar (c : Char) : Option Nat :=
  if '0' ≤ c ∧ c ≤ '9' then some (c.toNat - '0'.toNat)
  else if 'a' ≤ c ∧ c ≤ 'f' then some (c.toNat - 'a'.toNat + 10)
  else if 'A' ≤ c ∧ c ≤ 'F' then some (c.toNat - 'A'.toNat + 10)
  else none

/-- Embeds Go `encoding/hex.DecodeString` on the character sequence of the
input: pairs of hex digits become bytes; an odd-length input or any
non-hex character is an error (modelled as `none`). -/
def hexDecodeChars : List Char → Option (List Nat)
  | [] => some []
  | [_] => none
  | a :: b :: rest =>
    match fromHexChar a, fromHexChar b, hexDecodeChars rest with
    | some hi, some lo, some tail => some ((hi * 16 + lo) :: tail)
    | _, _, _ => none

/-- Embeds `strings.TrimPrefix(s, "dd")` as used by NewConfig: drop a
leading "dd" when present, otherwise return the input unchanged. -/
def stripDD (s : List Char) : List Char :=
  if List.isPrefixOf ['d', 'd'] s then s.drop 2 else s

/-- Go `net.IP` is a plain byte slice. -/
abbrev GoIP := List Nat

/-- Embeds `net.IP.To4` from the Go standard library: a 4-byte address is
returned as-is; a 16-byte IPv4-mapped address (ten zero bytes then
0xff 0xff) is shortened to its 4-byte tail; anything else yields nil. -/
def ipTo4 (ip : GoIP) : Option GoIP :=
  if ip.length = 4 then some ip
  else if ip.length = 16 ∧ ip.take 12 = [0, 0, 0, 0, 0, 0, 0, 0, 0, 0, 255, 255]
  then some (ip.drop 12)
  else none

/-- The `config.Config` structure (URL/stats helpers aside). -/
structure Config where
  Debug : Bool
  Verbose : Bool
  BindPort : Nat
  PublicIPv4Port : Nat
  PublicIPv6Port : Nat
  StatsPort : Nat
  BindIP : Option GoIP
  PublicIPv4 : Option GoIP
  PublicIPv6 : Option GoIP
  StatsIP : Option GoIP
  Secret : List Nat
  AdTag : List Nat
  deriving DecidableEq, Repr

def errSecretLen : String := "Telegram demands secret of length 32"

def errCannotCreate : String := "Cannot create config"

def errHexCause : String := "encoding/hex error"

def errNotIPv4 : String := "IP is not IPv4"

def errNotIPv6 : String := "IP is not IPv6"

/-- Embeds `config.NewConfig`. The two global-IP detectors
(`getGlobalIPv4` / `getGlobalIPv6`) are external network collaborators;
their results are taken as the parameters `detectV4` / `detectV6`, and
are consulted only when the corresponding public IP argument is nil. -/
def NewConfig (debug verbose : Bool)
    (bindIP : Option GoIP) (bindPort : Nat)
    (publicIPv4 : Option GoIP) (publicIPv4Port : Nat)
    (publicIPv6 : Option GoIP) (publicIPv6Port : Nat)
    (statsIP : Option GoIP) (statsPort : Nat)
    (secret adtag : String)
    (detectV4 detectV6 : Except String GoIP) : Except String Config :=
  let secretStripped := stripDD secret.data
  if secretStripped.length ≠ 32 then
    Except.error errSecretLen
  else
    match hexDecodeChars secretStripped with
    | none => Except.error (annotate errCannotCreate errHexCause)
    | some secretBytes =>
      let adRes : Option (List Nat) :=
        if adtag.length ≠ 0 then hexDecodeChars adtag.data else some []
      match adRes with
      | none => Except.error (annotate errCannotCreate errHexCause)
      | some adTagBytes =>
        let v4res : Except String (Option GoIP) :=
          match publicIPv4 with
          | some ip => Except.ok (some ip)
          | none =>
            match detectV4 with
            | Except.error _ => Except.ok none
            | Except.ok ip =>
              if ipTo4 ip = none then Except.error errNotIPv4
              else Except.ok (some ip)
        match v4res with
        | Except.error e => Except.error e
        | Except.ok pv4 =>
          let pv4port := if publicIPv4Port = 0 then bindPort else publicIPv4Port
          let v6res : Except String (Option GoIP) :=
            match publicIPv6 with
            | some ip => Except.ok (some ip)
            | none =>
              match detectV6 with
              | Except.error _ => Except.ok none
              | Except.ok ip =>
                if (ipTo4 ip).isSome then Except.error errNotIPv6
                else Except.ok (some ip)
          match v6res with
          | Except.error e => Except.error e
          | Except.ok pv6 =>
            let pv6port := if publicIPv6Port = 0 then bindPort else publicIPv6Port
            let st := match statsIP with
              | none => pv4
              | some ip => some ip
            Except.ok
              { Debug := debug
                Verbose := verbose
                BindPort := bindPort
                PublicIPv4Port := pv4port
                PublicIPv6Port := pv6port
                StatsPort := statsPort
                BindIP := bindIP
                PublicIPv4 := pv4
                PublicIPv6 := pv6
                StatsIP := st
                Secret := secretBytes
                AdTag := adTagBytes }

/-- Embeds `config.Config.UseMiddleProxy`. -/
def UseMiddleProxy (c : Config) : Bool :=
  decide (c.AdTag.length > 0)

/-- Remote addresses are abstract (Go carries a `*net.TCPAddr`). -/
abbrev Addr := String

/-- Modelled from the spec: the ack-rewrite flag pair of
`mtproto.ConnectionOpts` (the mtproto package is not under src/). -/
structure Hacks where
  QuickAck : Bool
  SimpleAck : Bool
  deriving DecidableEq, Repr

/-- Modelled from the spec: the protocol family of a connection
(IPv4, IPv6 or Any), from `mtproto` which is not under src/. -/
inductive Protocol where
  | IPv4
  | IPv6
  | Any
  deriving DecidableEq, Repr

/-- Modelled from the spec: the transport kind detected from the
obfuscated2 handshake, from `mtproto` which is not under src/. -/
inductive TransportType where
  | Abridged
  | Intermediate
  | SecureIntermediate
  deriving DecidableEq, Repr

/-- Modelled from the spec: `mtproto.ConnectionOpts` — DC id, transport,
protocol family, client address and the two ack-rewrite flag pairs
(the mtproto package is not under src/). -/
structure ConnectionOpts where
  DC : Int
  Transport : TransportType
  ConnectionProto : Protocol
  ClientAddr : Option Addr
  ReadHacks : Hacks
  WriteHacks : Hacks
  deriving DecidableEq, Repr

/-- Abstract handles for the two AES-CTR transforms derived by the
obfuscated2 codec (the obfuscated2 package is not under src/). -/
structure Obfs2 where
  Encryptor : Nat
  Decryptor : Nat
  deriving DecidableEq, Repr

/-- A wrapper stack over the raw socket. Each constructor records one
layer of the decorator chain built by DirectInit and getClientStream;
the layers themselves live in the wrappers package, not under src/. -/
inductive Stream where
  | raw : Stream
  | timeout : Stream → Stream
  | cipher (readTransform writeTransform : Nat) : Stream → Stream
  | traffic : Stream → Stream
  | log : Stream → Stream
  | ctx : Stream → Stream
  deriving DecidableEq, Repr

/-- Modelled from the spec: `wrappers.NewTimeoutRWC` (not under src/)
adds the timeout layer over its inner stream. -/
def NewTimeoutRWC (inner : Stream) : Stream :=
  Stream.timeout inner

/-- Modelled from the spec: `wrappers.NewStreamCipherRWC` (not under
src/) adds the cipher layer; per the spec the first cipher argument is
the inbound (read) transform and the second the outbound (write)
transform. -/
def NewStreamCipherRWC (inner : Stream) (readTransform writeTransform : Nat) : Stream :=
  Stream.cipher readTransform writeTransform inner

/-- Modelled from the spec: `wrappers.NewTrafficRWC` (not under src/)
adds the traffic-accounting layer. -/
def NewTrafficRWC (inner : Stream) : Stream :=
  Stream.traffic inner

/-- Modelled from the spec: `wrappers.NewLogRWC` (not under src/) adds
the logging layer. -/
def NewLogRWC (inner : Stream) : Stream :=
  Stream.log inner

/-- Modelled from the spec: `wrappers.NewCtxRWC` (not under src/) adds
the context-cancellation layer. -/
def NewCtxRWC (inner : Stream) : Stream :=
  Stream.ctx inner

/-- The inbound (read-side) transform of the outermost cipher layer. -/
def cipherReadTransform : Stream → Option Nat
  | Stream.cipher r _ _ => some r
  | _ => none

/-- The outbound (write-side) transform of the outermost cipher layer. -/
def cipherWriteTransform : Stream → Option Nat
  | Stream.cipher _ w _ => some w
  | _ => none

/-- A 64-byte obfuscated2 handshake frame (content abstract here: the
frame is produced by io.ReadFull inside obfuscated2.ExtractFrame and
only passed through by the code under src/). -/
abbrev Frame := List Nat

/-- `handshakeTimeout = 10 * time.Second` from client/direct.go. -/
def handshakeTimeoutSeconds : Nat := 10

/-- Observable actions of DirectInit on the raw connection, in program
order. -/
inductive DirectEvent where
  | setSocketOptions
  | setReadDeadline (seconds : Nat)
  | extractFrame
  | clearReadDeadline
  | parseFrame
  deriving DecidableEq, Repr

/-- Result of DirectInit: the trace of connection actions and the Go
return value. -/
structure DirectInitResult where
  events : List DirectEvent
  result : Except String (Stream × ConnectionOpts)
  deriving Repr

def errSetSockOpts : String := "Cannot set socket options"

def errExtract : String := "Cannot extract frame"

def errParse : String := "Cannot parse obfuscated frame"

/-- Embeds `client.DirectInit`. The external collaborators are taken as
parameters: `setOptsErr` is the result of `config.SetSocketOptions`,
`extractRes` the result of `obfuscated2.ExtractFrame`, `parseRes` the
behaviour of `obfuscated2.ParseObfuscated2ClientFrame` on the secret,
and `remoteAddr` the peer address `conn.RemoteAddr()`. -/
def DirectInit (setOptsErr : Option String)
    (extractRes : Except String Frame)
    (parseRes : Frame → Except String (Obfs2 × ConnectionOpts))
    (remoteAddr : Addr) : DirectInitResult :=
  match setOptsErr with
  | some e =>
    { events := [DirectEvent.setSocketOptions]
      result := Except.error (annotate errSetSockOpts e) }
  | none =>
    match extractRes with
    | Except.error e =>
      { events := [DirectEvent.setSocketOptions,
                   DirectEvent.setReadDeadline handshakeTimeoutSeconds,
                   DirectEvent.extractFrame, DirectEvent.clearReadDeadline]
        result := Except.error (annotate errExtract e) }
    | Except.ok frame =>
      match parseRes frame with
      | Except.error e =>
        { events := [DirectEvent.setSocketOptions,
                     DirectEvent.setReadDeadline handshakeTimeoutSeconds,
                     DirectEvent.extractFrame, DirectEvent.clearReadDeadline,
                     DirectEvent.parseFrame]
          result := Except.error (annotate errParse e) }
      | Except.ok (obfs2, connOpts0) =>
        let connOpts := { connOpts0 with
                          ConnectionProto := Protocol.Any
                          ClientAddr := some remoteAddr }
        let socket := NewTimeoutRWC Stream.raw
        let socket := NewStreamCipherRWC socket obfs2.Encryptor obfs2.Decryptor
        { events := [DirectEvent.setSocketOptions,
                     DirectEvent.setReadDeadline handshakeTimeoutSeconds,
                     DirectEvent.extractFrame, DirectEvent.clearReadDeadline,
                     DirectEvent.parseFrame]
          result := Except.ok (socket, connOpts) }

/-- The two client-initializer strategies of the client package. Only
`DirectInit` is under src/; the names record which strategy NewServer
selects. -/
inductive ClientInitStrategy where
  | DirectInit
  | MiddleInit
  deriving DecidableEq, Repr

/-- The two Telegram dialer strategies of the telegram package (not
under src/); the names record which strategy NewServer selects. -/
inductive TelegramStrategy where
  | NewDirectTelegram
  | NewMiddleTelegram
  deriving DecidableEq, Repr

/-- The `proxy.Server` state: configuration plus the two selected
strategies (logger and stats are opaque collaborators). -/
structure Server where
  conf : Config
  clientInit : ClientInitStrategy
  tg : TelegramStrategy
  deriving DecidableEq, Repr

/-- Embeds `proxy.NewServer`: strategies default to direct and are both
switched to the middle variants when the ad tag is non-empty. -/
def NewServer (conf : Config) : Server :=
  if conf.AdTag.length > 0 then
    { conf := conf
      clientInit := ClientInitStrategy.MiddleInit
      tg := TelegramStrategy.NewMiddleTelegram }
  else
    { conf := conf
      clientInit := ClientInitStrategy.DirectInit
      tg := TelegramStrategy.NewDirectTelegram }

/-- One outcome of `lsock.Accept()` in the Serve loop. -/
inductive AcceptEvent where
  | acceptErr (e : String)
  | acceptedConn (id : Nat)
  deriving DecidableEq, Repr

/-- What one Serve loop iteration does with its Accept outcome. -/
inductive ServeAction where
  | logAcceptWarn (e : String)
  | spawnHandler (id : Nat)
  deriving DecidableEq, Repr

/-- The body of one iteration of the Serve accept loop: an Accept error
is logged and the loop continues; a connection spawns a handler. -/
def serveLoopStep : AcceptEvent → ServeAction
  | AcceptEvent.acceptErr e => ServeAction.logAcceptWarn e
  | AcceptEvent.acceptedConn id => ServeAction.spawnHandler id

def errListen : String := "Cannot create listen socket"

/-- Embeds `proxy.Server.Serve` over a finite trace of Accept outcomes:
a listen failure returns immediately; otherwise every Accept outcome is
handled by `serveLoopStep` and the loop never exits (over any finite
trace it consumes every outcome and produces one action each). -/
def Serve (listenRes : Except String Unit) (events : List AcceptEvent) :
    Except String (List ServeAction) :=
  match listenRes with
  | Except.error e => Except.error (annotate errListen e)
  | Except.ok _ => Except.ok (events.map serveLoopStep)

/-- How the body of `proxy.Server.accept` finished, before its deferred
function runs. -/
inductive BodyExit where
  | clientInitFailed (e : String)
  | telegramFailed (e : String)
  | finished
  | panicked (p : String)
  deriving DecidableEq, Repr

/-- What the handler looks like from the outside after the deferred
function has run. -/
structure HandlerOutcome where
  connClosed : Bool
  statsConnectionClosed : Bool
  panicPropagated : Option String
  panicLogged : Option String
  deriving DecidableEq, Repr

/-- Embeds the deferred function of `proxy.Server.accept`: on every exit
of the body (normal return, early error return, or panic) it decrements
the connection stats, closes the raw connection, and `recover()`s any
panic, logging it instead of propagating it. -/
def runAcceptDeferred (ex : BodyExit) : HandlerOutcome :=
  { connClosed := true
    statsConnectionClosed := true
    panicPropagated := none
    panicLogged := match ex with
      | BodyExit.panicked p => some p
      | _ => none }

/-- Result of one `proxy.Server.pump` call: the exact buffer handed to
`dst.Write` (if the read succeeded) and the returned error. -/
structure PumpOutcome where
  writtenToDst : Option (List Nat)
  pumpErr : Option String
  deriving DecidableEq, Repr

def errPump : String := "Cannot pump the socket"

/-- Embeds `proxy.Server.pump`. `utils.ReadCurrentData` (not under src/)
is taken as the parameter `readRes`; `dst.Write` as the behaviour
`writeRes` giving the error the destination returns for a buffer. The
buffer read is passed to the write untouched. -/
def pump (readRes : Except String (List Nat))
    (writeRes : List Nat → Option String) : PumpOutcome :=
  match readRes with
  | Except.error e =>
    { writtenToDst := none
      pumpErr := some (annotate errPump e) }
  | Except.ok buf =>
    { writtenToDst := some buf
      pumpErr := writeRes buf }

def errInitClient : String := "Cannot init client connection"

/-- Embeds `proxy.Server.getClientStream`: on client-init success the
socket is wrapped with traffic accounting, then logging, then the
context layer. -/
def getClientStream (initRes : Except String (Stream × ConnectionOpts)) :
    Except String (ConnectionOpts × Stream) :=
  match initRes with
  | Except.error e => Except.error (annotate errInitClient e)
  | Except.ok (socket0, connOpts) =>
    let socket := NewTrafficRWC socket0
    let socket := NewLogRWC socket
    let socket := NewCtxRWC socket
    Except.ok (connOpts, socket)

/-- Embeds one iteration of the client-to-Telegram pump goroutine in
`proxy.Server.accept`: the read-side ack flags are cleared, then pump
runs on the updated options (`pumpStep` is the pump call, a function of
the options state it observes). -/
def clientPumpIteration (opts : ConnectionOpts)
    (pumpStep : ConnectionOpts → Option String) : ConnectionOpts × Option String :=
  let cleared := { opts with ReadHacks := { QuickAck := false, SimpleAck := false } }
  (cleared, pumpStep cleared)

/-- Embeds one iteration of the Telegram-to-client pump goroutine in
`proxy.Server.accept`: the write-side ack flags are cleared, then pump
runs on the updated options. -/
def telegramPumpIteration (opts : ConnectionOpts)
    (pumpStep : ConnectionOpts → Option String) : ConnectionOpts × Option String :=
  let cleared := { opts with WriteHacks := { QuickAck := false, SimpleAck := false } }
  (cleared, pumpStep cleared)

/-! Sample inputs used to instantiate the theorems. -/

def eDetect : String := "cannot detect"

def detectFail : Except String GoIP := Except.error eDetect

def sampleIPv4 : GoIP := [10, 0, 0, 1]

def sampleIPv6 : GoIP := [32, 1, 13, 184, 0, 0, 0, 0, 0, 0, 0, 0, 0, 0, 0, 1]

def validSecret : String := "0123456789abcdef0123456789abcdef"

def emptyTag : String := ""

def secretDD : String := "dd"

def secretDD31 : String := "dd0123456789abcdef0123456789abcde"

def secretZZ : String := "zzzzzzzzzzzzzzzzzzzzzzzzzzzzzzzz"

def sampleAdTag2 : String := "abcd"

def secretEmpty : String := ""

/-! Auxiliary lemmas about the hex decoder. -/

theorem hexDecodeChars_isSome_eq : ∀ l : List Char,
    (hexDecodeChars l).isSome
      = (decide (l.length % 2 = 0) && l.all fun c => (fromHexChar c).isSome)
  | [] => by simp [hexDecodeChars]
  | [a] => by simp [hexDecodeChars]
  | a :: b :: rest => by
    have ih := hexDecodeChars_isSome_eq rest
    have hmod : decide ((a :: b :: rest).length % 2 = 0)
        = decide (rest.length % 2 = 0) :=
      decide_eq_decide.mpr (by simp; omega)
    rw [hexDecodeChars, List.all_cons, List.all_cons, hmod]
    cases ha : fromHexChar a <;> cases hb : fromHexChar b <;>
      cases hr : hexDecodeChars rest <;> simp_all

theorem hexDecodeChars_length : ∀ l : List Char, ∀ bs : List Nat,
    hexDecodeChars l = some bs → 2 * bs.length = l.length
  | [], bs, h => by
    simp [hexDecodeChars] at h
    simp [← h]
  | [a], bs, h => by
    simp [hexDecodeChars] at h
  | a :: b :: rest, bs, h => by
    rw [hexDecodeChars] at h
    cases ha : fromHexChar a <;> rw [ha] at h <;>
      cases hb : fromHexChar b <;> try rw [hb] at h
    all_goals try simp at h
    cases hr : hexDecodeChars rest <;> rw [hr] at h <;> simp at h
    have ih := hexDecodeChars_length rest _ hr
    simp [← h, List.length_cons]
    omega

theorem emptyTag_length : emptyTag.length = 0 := rfl

theorem newConfig_secret_core (s : String) :
    exOk (NewConfig false false none 443 (some sampleIPv4) 0 (some sampleIPv6) 0
        none 8080 s emptyTag detectFail detectFail)
      = (decide ((stripDD s.data).length = 32)
          && (stripDD s.data).all fun c => (fromHexChar c).isSome) := by
  by_cases h : (stripDD s.data).length = 32
  · cases hd : hexDecodeChars (stripDD s.data) with
    | none =>
      have hs := hexDecodeChars_isSome_eq (stripDD s.data)
      rw [hd] at hs
      simp [h] at hs
      simp [NewConfig, h, hd, exOk, hs]
    | some bs =>
      have hs := hexDecodeChars_isSome_eq (stripDD s.data)
      rw [hd] at hs
      simp [h] at hs
      simp [NewConfig, h, hd, exOk, emptyTag_length]
      exact hs
  · simp [NewConfig, h, exOk]

/-- C1: NewConfig (with the other arguments benign) succeeds on a secret
string s iff stripping an optional "dd" prefix leaves exactly 32 hex
digits (case-insensitive); in particular "", "dd", "dd" followed by 31
hex digits, and "zz" repeated 16 times are all rejected with an error. -/
theorem newConfig_secret_length_law :
    (∀ s : String,
      exOk (NewConfig false false none 443 (some sampleIPv4) 0 (some sampleIPv6) 0
          none 8080 s emptyTag detectFail detectFail)
        = (decide ((stripDD s.data).length = 32)
            && (stripDD s.data).all fun c => (fromHexChar c).isSome))
    ∧ exOk (NewConfig false false none 443 (some sampleIPv4) 0 (some sampleIPv6) 0
        none 8080 secretEmpty emptyTag detectFail detectFail) = false
    ∧ exOk (NewConfig false false none 443 (some sampleIPv4) 0 (some sampleIPv6) 0
        none 8080 secretDD emptyTag detectFail detectFail) = false
    ∧ exOk (NewConfig false false none 443 (some sampleIPv4) 0 (some sampleIPv6) 0
        none 8080 secretDD31 emptyTag detectFail detectFail) = false
    ∧ exOk (NewConfig false false none 443 (some sampleIPv4) 0 (some sampleIPv6) 0
        none 8080 secretZZ emptyTag detectFail detectFail) = false := by
  refine ⟨newConfig_secret_core, ?_, ?_, ?_, ?_⟩ <;> decide

def validSecretBytes : List Nat :=
  [1, 35, 69, 103, 137, 171, 205, 239, 1, 35, 69, 103, 137, 171, 205, 239]

theorem validSecret_len : (stripDD validSecret.data).length = 32 := by decide

theorem validSecret_decode :
    hexDecodeChars (stripDD validSecret.data) = some validSecretBytes := by decide

/-- C2 counterexample: NewConfig accepts the non-empty ad_tag "abcd"
(4 hex characters), storing a 2-byte AdTag — neither 0 nor 16 bytes —
so non-empty ad_tag inputs other than 32 hex characters are not all
rejected. -/
theorem newConfig_adtag_length_counterexample :
    (exToOption (NewConfig false false none 443 (some sampleIPv4) 0 (some sampleIPv6) 0
        none 8080 validSecret sampleAdTag2 detectFail detectFail)).map Config.AdTag
      = some [171, 205] := by
  decide

/-- C2 amended: an empty ad_tag yields an empty AdTag; a non-empty
ad_tag is accepted iff it decodes as hex (even length, hex digits
only), and the stored AdTag is its hex decoding — half as many bytes
as input characters. NewConfig enforces no 16-byte AdTag length. -/
theorem newConfig_adtag_amended (adtag : String) :
    (exToOption (NewConfig false false none 443 (some sampleIPv4) 0 (some sampleIPv6) 0
        none 8080 validSecret adtag detectFail detectFail)).map Config.AdTag
      = (if adtag.length = 0 then some [] else hexDecodeChars adtag.data)
    ∧ (∀ bs : List Nat, hexDecodeChars adtag.data = some bs
        → 2 * bs.length = adtag.data.length) := by
  constructor
  · by_cases h : adtag.length = 0
    · simp [NewConfig, validSecret_len, validSecret_decode, h, exToOption]
    · cases hd : hexDecodeChars adtag.data <;>
        simp [NewConfig, validSecret_len, validSecret_decode, h, hd, exToOption]
  · intro bs hb
    exact hexDecodeChars_length _ _ hb

theorem newConfig_adtag_amended_witness :
    2 * ([171, 205] : List Nat).length = sampleAdTag2.data.length :=
  (newConfig_adtag_amended sampleAdTag2).2 [171, 205] (by decide)

def sampleConfig : Config :=
  { Debug := false
    Verbose := false
    BindPort := 443
    PublicIPv4Port := 443
    PublicIPv6Port := 443
    StatsPort := 8080
    BindIP := none
    PublicIPv4 := none
    PublicIPv6 := none
    StatsIP := none
    Secret := validSecretBytes
    AdTag := [171, 205] }

/-- C3: UseMiddleProxy is true iff AdTag is non-empty, and NewServer
selects the middle client-initializer and middle Telegram dialer
exactly in that case, the direct pair otherwise. -/
theorem useMiddleProxy_mode_selection (c : Config) :
    (UseMiddleProxy c = true ↔ c.AdTag ≠ [])
    ∧ ((NewServer c).clientInit = ClientInitStrategy.MiddleInit ↔ c.AdTag ≠ [])
    ∧ ((NewServer c).tg = TelegramStrategy.NewMiddleTelegram ↔ c.AdTag ≠ [])
    ∧ ((NewServer c).clientInit = ClientInitStrategy.DirectInit ↔ c.AdTag = [])
    ∧ ((NewServer c).tg = TelegramStrategy.NewDirectTelegram ↔ c.AdTag = []) := by
  by_cases h : c.AdTag = [] <;>
    simp [UseMiddleProxy, NewServer, h, List.length_pos]

theorem useMiddleProxy_mode_selection_witness :
    UseMiddleProxy sampleConfig = true :=
  (useMiddleProxy_mode_selection sampleConfig).1.mpr (by decide)

/-- C4: Serve fails only when creating the listening socket fails; with
a listener every accept outcome is handled inside the loop (an accept
error is logged and the loop continues, a connection spawns a handler),
and the deferred recover in the accept handler closes the connection
and stops any panic from propagating out of the handler. -/
theorem accept_loop_resilience :
    (∀ events : List AcceptEvent,
      Serve (Except.ok ()) events = Except.ok (events.map serveLoopStep))
    ∧ (∀ e : String,
      serveLoopStep (AcceptEvent.acceptErr e) = ServeAction.logAcceptWarn e)
    ∧ (∀ le : String, ∀ events : List AcceptEvent,
      Serve (Except.error le) events = Except.error (annotate errListen le))
    ∧ (∀ ex : BodyExit,
      (runAcceptDeferred ex).panicPropagated = none
        ∧ (runAcceptDeferred ex).connClosed = true) :=
  ⟨fun _ => rfl, fun _ => rfl, fun _ _ => rfl, fun _ => ⟨rfl, rfl⟩⟩

/-- C5: a pump step hands the destination exactly the bytes the read
returned, unmodified, and fails iff the read fails (its error
annotated) or the write fails (its error returned as-is). -/
theorem pump_transparency (readRes : Except String (List Nat))
    (writeRes : List Nat → Option String) :
    (∀ buf : List Nat, readRes = Except.ok buf →
        (pump readRes writeRes).writtenToDst = some buf
        ∧ (pump readRes writeRes).pumpErr = writeRes buf)
    ∧ (∀ e : String, readRes = Except.error e →
        (pump readRes writeRes).writtenToDst = none
        ∧ (pump readRes writeRes).pumpErr = some (annotate errPump e))
    ∧ ((pump readRes writeRes).pumpErr = none
        ↔ ∃ buf, readRes = Except.ok buf ∧ writeRes buf = none) := by
  refine ⟨?_, ?_, ?_⟩ <;> cases readRes <;> simp [pump]

theorem pump_transparency_witness :
    (pump (Except.ok [1, 2, 3]) (fun _ => none)).writtenToDst = some [1, 2, 3] :=
  ((pump_transparency (Except.ok [1, 2, 3]) (fun _ => none)).1 [1, 2, 3] rfl).1

/-- C9: each pump-goroutine iteration clears its own direction's ack
flags before the transfer: the client-to-Telegram iteration clears
ReadHacks.QuickAck and ReadHacks.SimpleAck (leaving WriteHacks alone)
and runs pump on the cleared state, and the Telegram-to-client
iteration does the same with WriteHacks. -/
theorem pump_ack_flags_reset (opts : ConnectionOpts)
    (pumpStep : ConnectionOpts → Option String) :
    ((clientPumpIteration opts pumpStep).1.ReadHacks.QuickAck = false
      ∧ (clientPumpIteration opts pumpStep).1.ReadHacks.SimpleAck = false
      ∧ (clientPumpIteration opts pumpStep).1.WriteHacks = opts.WriteHacks
      ∧ (clientPumpIteration opts pumpStep).2
          = pumpStep { opts with ReadHacks := { QuickAck := false, SimpleAck := false } })
    ∧ ((telegramPumpIteration opts pumpStep).1.WriteHacks.QuickAck = false
      ∧ (telegramPumpIteration opts pumpStep).1.WriteHacks.SimpleAck = false
      ∧ (telegramPumpIteration opts pumpStep).1.ReadHacks = opts.ReadHacks
      ∧ (telegramPumpIteration opts pumpStep).2
          = pumpStep { opts with WriteHacks := { QuickAck := false, SimpleAck := false } }) :=
  ⟨⟨rfl, rfl, rfl, rfl⟩, ⟨rfl, rfl, rfl, rfl⟩⟩

def sampleOpts : ConnectionOpts :=
  { DC := 2
    Transport := TransportType.Intermediate
    ConnectionProto := Protocol.IPv4
    ClientAddr := none
    ReadHacks := { QuickAck := false, SimpleAck := false }
    WriteHacks := { QuickAck := false, SimpleAck := false } }

def sampleObfs : Obfs2 :=
  { Encryptor := 1, Decryptor := 2 }

def sampleAddrStr : String := "127.0.0.1:5000"

/-- C6: the client-side wrapper stack is, outer to inner, context →
logging → traffic-accounting → cipher → timeout → raw socket: on
success DirectInit wraps the raw connection with timeout then cipher,
and getClientStream wraps that with traffic, then logging, then the
context layer. -/
theorem wrapper_stack_order (extractRes : Except String Frame)
    (parseRes : Frame → Except String (Obfs2 × ConnectionOpts))
    (addr : Addr) (frame : Frame) (obfs2 : Obfs2) (o : ConnectionOpts)
    (hext : extractRes = Except.ok frame)
    (hpar : parseRes frame = Except.ok (obfs2, o)) :
    getClientStream (DirectInit none extractRes parseRes addr).result
      = Except.ok
          ({ o with ConnectionProto := Protocol.Any, ClientAddr := some addr },
           Stream.ctx (Stream.log (Stream.traffic
             (Stream.cipher obfs2.Encryptor obfs2.Decryptor
               (Stream.timeout Stream.raw))))) := by
  subst hext
  simp [DirectInit, hpar, getClientStream, NewTimeoutRWC, NewStreamCipherRWC,
    NewTrafficRWC, NewLogRWC, NewCtxRWC]

theorem wrapper_stack_order_witness :
    getClientStream (DirectInit none (Except.ok ([] : Frame))
        (fun _ => Except.ok (sampleObfs, sampleOpts)) sampleAddrStr).result
      = Except.ok
          ({ sampleOpts with
              ConnectionProto := Protocol.Any,
              ClientAddr := some sampleAddrStr },
           Stream.ctx (Stream.log (Stream.traffic
             (Stream.cipher sampleObfs.Encryptor sampleObfs.Decryptor
               (Stream.timeout Stream.raw))))) :=
  wrapper_stack_order _ _ _ [] sampleObfs sampleOpts rfl rfl

/-- C7: on success DirectInit returns options with protocol Any and the
peer address as the client address, and a stream whose cipher layer
carries the Encryptor in the read (inbound) slot and the Decryptor in
the write (outbound) slot. -/
theorem directInit_opts_and_cipher (extractRes : Except String Frame)
    (parseRes : Frame → Except String (Obfs2 × ConnectionOpts))
    (addr : Addr) (frame : Frame) (obfs2 : Obfs2) (o : ConnectionOpts)
    (hext : extractRes = Except.ok frame)
    (hpar : parseRes frame = Except.ok (obfs2, o)) :
    ∃ sock : Stream,
      (DirectInit none extractRes parseRes addr).result
          = Except.ok (sock, { o with
                               ConnectionProto := Protocol.Any,
                               ClientAddr := some addr })
        ∧ cipherReadTransform sock = some obfs2.Encryptor
        ∧ cipherWriteTransform sock = some obfs2.Decryptor := by
  subst hext
  refine ⟨NewStreamCipherRWC (NewTimeoutRWC Stream.raw) obfs2.Encryptor obfs2.Decryptor,
    ?_, rfl, rfl⟩
  simp [DirectInit, hpar, NewTimeoutRWC, NewStreamCipherRWC]

theorem directInit_opts_and_cipher_witness :
    ∃ sock : Stream,
      (DirectInit none (Except.ok ([] : Frame))
          (fun _ => Except.ok (sampleObfs, sampleOpts)) sampleAddrStr).result
          = Except.ok (sock, { sampleOpts with
                               ConnectionProto := Protocol.Any,
                               ClientAddr := some sampleAddrStr })
        ∧ cipherReadTransform sock = some sampleObfs.Encryptor
        ∧ cipherWriteTransform sock = some sampleObfs.Decryptor :=
  directInit_opts_and_cipher _ _ _ [] sampleObfs sampleOpts rfl rfl

/-- C8: DirectInit sets the 10-second read deadline immediately before
extracting the handshake frame and clears it immediately after, whether
or not extraction succeeds; on extraction or parsing failure it returns
an error (hence neither stream nor options); and the accept handler's
deferred function closes the raw socket on every exit path. -/
theorem directInit_deadline_events (extractRes : Except String Frame)
    (parseRes : Frame → Except String (Obfs2 × ConnectionOpts)) (addr : Addr) :
    (∀ e : String, extractRes = Except.error e →
      (DirectInit none extractRes parseRes addr).events
          = [DirectEvent.setSocketOptions,
             DirectEvent.setReadDeadline handshakeTimeoutSeconds,
             DirectEvent.extractFrame, DirectEvent.clearReadDeadline]
        ∧ exOk (DirectInit none extractRes parseRes addr).result = false)
    ∧ (∀ frame : Frame, extractRes = Except.ok frame →
      (DirectInit none extractRes parseRes addr).events
          = [DirectEvent.setSocketOptions,
             DirectEvent.setReadDeadline handshakeTimeoutSeconds,
             DirectEvent.extractFrame, DirectEvent.clearReadDeadline,
             DirectEvent.parseFrame]
        ∧ (∀ e : String, parseRes frame = Except.error e →
            exOk (DirectInit none extractRes parseRes addr).result = false))
    ∧ handshakeTimeoutSeconds = 10
    ∧ (∀ ex : BodyExit, (runAcceptDeferred ex).connClosed = true) := by
  refine ⟨?_, ?_, rfl, fun _ => rfl⟩
  · intro e he
    subst he
    exact ⟨rfl, rfl⟩
  · intro frame hf
    subst hf
    constructor
    · cases hp : parseRes frame with
      | error e => simp [DirectInit, hp]
      | ok v => simp [DirectInit, hp]
    · intro e hp
      simp [DirectInit, hp, exOk]

theorem directInit_deadline_events_witness :
    (DirectInit none (Except.error eDetect)
        (fun _ => Except.ok (sampleObfs, sampleOpts)) sampleAddrStr).events
      = [DirectEvent.setSocketOptions,
         DirectEvent.setReadDeadline handshakeTimeoutSeconds,
         DirectEvent.extractFrame, DirectEvent.clearReadDeadline] :=
  ((directInit_deadline_events (Except.error eDetect)
      (fun _ => Except.ok (sampleObfs, sampleOpts)) sampleAddrStr).1 eDetect rfl).1

/-- C10: when a public IP argument is nil, a failed auto-detection is
not fatal — NewConfig succeeds with that public address left unset —
and the address-family check applies only to auto-detected addresses:
an explicitly supplied public IP of any shape is stored without a
family check, while an auto-detected one succeeds exactly when it
passes the family check. -/
theorem newConfig_public_ip_autodetect (e4 e6 : String) (ip : GoIP) :
    ((exToOption (NewConfig false false none 443 none 0 (some sampleIPv6) 0 none 8080
        validSecret emptyTag (Except.error e4) detectFail)).map Config.PublicIPv4
      = some none)
    ∧ ((exToOption (NewConfig false false none 443 (some sampleIPv4) 0 none 0 none 8080
        validSecret emptyTag detectFail (Except.error e6))).map Config.PublicIPv6
      = some none)
    ∧ ((exToOption (NewConfig false false none 443 (some ip) 0 (some sampleIPv6) 0 none 8080
        validSecret emptyTag detectFail detectFail)).map Config.PublicIPv4
      = some (some ip))
    ∧ ((exToOption (NewConfig false false none 443 (some sampleIPv4) 0 (some ip) 0 none 8080
        validSecret emptyTag detectFail detectFail)).map Config.PublicIPv6
      = some (some ip))
    ∧ (exOk (NewConfig false false none 443 none 0 (some sampleIPv6) 0 none 8080
        validSecret emptyTag (Except.ok ip) detectFail)
      = (ipTo4 ip).isSome)
    ∧ (exOk (NewConfig false false none 443 (some sampleIPv4) 0 none 0 none 8080
        validSecret emptyTag detectFail (Except.ok ip))
      = !(ipTo4 ip).isSome) := by
  refine ⟨?_, ?_, ?_, ?_, ?_, ?_⟩ <;>
  · cases hip : ipTo4 ip <;>
      simp [NewConfig, validSecret_len, validSecret_decode, emptyTag_length,
        exToOption, exOk, detectFail, hip]

end Mtg
